import Mathlib

/-!
A shallow embedding of the message intake and auto-reply pipeline of the
WhatsApp customer-messaging service (src/lib/database.ts,
src/lib/message-processor.ts, src/lib/whatsapp.ts), together with theorems
settling the specification claims about it.

Modelling conventions:
* the in-memory arrays of `database.ts` become lists inside an explicit
  `DBState` record threaded through every operation;
* `generateId` (Math.random-based in the source) is modelled as a counter
  drawn from `DBState.nextId`: ids are opaque to all of the logic;
* external I/O (the WhatsApp send endpoint, timezone resolution through
  `Date.toLocale*String`, the wall clock) is supplied by an `Env` record:
  `sendResponse to body = some id` models a successful HTTP send returning
  `response.messages[0].id`, `none` models any failure; `tzResolve tz =
  some (weekday, "HH:MM")` models successful timezone resolution, `none`
  models the thrown exception caught in `BusinessHours.isBusinessHour`;
* JavaScript strings compare with `<=` lexicographically on code units,
  which for the ASCII `"HH:MM"` strings involved coincides with Lean's
  `String` order; JS truthiness of strings (`""` falsy) is modelled with
  explicit `== ""` tests.
-/

namespace WhatsAppBot

/-- Customer record (src/types/database.ts); `createdAt`/`updatedAt` and
the free-form metadata are bookkeeping no pipeline decision reads and are
omitted.  Timestamps are integer milliseconds. -/
structure Customer where
  id : String
  phoneNumber : String
  name : String
  isNew : Bool
  status : String
  lastMessageAt : Int
  firstMessageAt : Int
  messageCount : Nat
deriving Repr, DecidableEq

/-- Message record (src/types/database.ts).  `messageId` is the
channel-native (WhatsApp) message id, `id` the internally generated one. -/
structure Message where
  id : String
  customerId : String
  messageId : String
  direction : String
  msgType : String
  content : String
  status : String
  isAutoReply : Bool
  timestamp : Int
deriving Repr, DecidableEq

/-- One weekday's business-hours entry (`{start, end, enabled}`). -/
structure DaySchedule where
  start : String
  «end» : String
  enabled : Bool
deriving Repr, DecidableEq

/-- The `businessHours` block of the settings singleton.  The JS object
keyed by weekday name is modelled as an association list. -/
structure BusinessHoursConfig where
  enabled : Bool
  timezone : String
  schedule : List (String × DaySchedule)
deriving Repr, DecidableEq

/-- The four auto-reply templates. -/
structure AutoReplyConfig where
  newCustomerMessage : String
  returningCustomerMessage : String
  afterHoursMessage : String
  fallbackMessage : String
deriving Repr, DecidableEq

/-- Bot settings singleton (src/types/whatsapp.ts `BotSettings`); fields
not read by the pipeline (webhookUrl, verifyToken, timestamps) omitted. -/
structure BotSettings where
  isActive : Bool
  businessHours : BusinessHoursConfig
  autoReply : AutoReplyConfig
  accessToken : String
  phoneNumberId : String
deriving Repr, DecidableEq

/-- The module-level mutable arrays of src/lib/database.ts, made explicit,
plus the fresh-id counter standing in for `generateId`. -/
structure DBState where
  customers : List Customer
  messages : List Message
  botSettings : Option BotSettings
  nextId : Nat
deriving Repr, DecidableEq

/-- `generateId()` of database.ts, modelled as a deterministic fresh name
drawn from the state counter. -/
def generateId (n : Nat) : String :=
  "id_" ++ toString n

/-- Strip leading and trailing whitespace, JS `String.prototype.trim`.
(Lean's own `String.trim` works on byte positions and does not reduce in
the kernel, so the string primitives the source uses are modelled on
character lists.) -/
def trimChars (cs : List Char) : List Char :=
  ((cs.dropWhile Char.isWhitespace).reverse.dropWhile Char.isWhitespace).reverse

/-- JS `trim`. -/
def jsTrim (s : String) : String := String.mk (trimChars s.toList)

/-- JS `toLowerCase` (ASCII, which is all the pipeline compares). -/
def jsToLower (s : String) : String := String.mk (s.toList.map Char.toLower)

/-- JS `slice(-n)`: the last `n` characters (the whole string when it is
shorter). -/
def jsTakeRight (s : String) (n : Nat) : String :=
  String.mk (s.toList.drop (s.toList.length - n))

/-- Lexicographic `≤` on character lists: JS string comparison. -/
def charListLe : List Char → List Char → Bool
  | [], _ => true
  | _ :: _, [] => false
  | a :: as, b :: bs =>
    if a < b then true
    else if b < a then false
    else charListLe as bs

/-- JS `<=` on strings (lexicographic). -/
def strLe (a b : String) : Bool := charListLe a.toList b.toList

/-- Replace the first element satisfying `p` by its `f`-image, returning
the new list and the updated element.  This is exactly the
`findIndex` + in-place overwrite pattern used throughout database.ts. -/
def updateFirst {α : Type} (p : α → Bool) (f : α → α) : List α → List α × Option α
  | [] => ([], none)
  | x :: xs =>
    if p x then (f x :: xs, some (f x))
    else
      let r := updateFirst p f xs
      (x :: r.1, r.2)

namespace CustomerDatabase

/-- `CustomerDatabase.findByPhoneNumber`. -/
def findByPhoneNumber (s : DBState) (phoneNumber : String) : Option Customer :=
  s.customers.find? (fun c => c.phoneNumber == phoneNumber)

/-- `CustomerDatabase.create`: assigns a fresh id and pushes.  The `id`
field of the argument is ignored, as in the source's `Omit<'id', ...>`. -/
def create (s : DBState) (customerData : Customer) : DBState × Customer :=
  let customer := { customerData with id := generateId s.nextId }
  ({ s with customers := s.customers ++ [customer], nextId := s.nextId + 1 }, customer)

/-- `CustomerDatabase.update`: overwrite the first customer with the given
id.  The source's `Partial<Customer>` spread is modelled by the update
function `f`. -/
def update (s : DBState) (id : String) (f : Customer → Customer) :
    DBState × Option Customer :=
  let r := updateFirst (fun c => c.id == id) f s.customers
  ({ s with customers := r.1 }, r.2)

/-- `CustomerDatabase.markAsReturning`: look up by phone number and clear
`isNew`; no-op when the customer is absent. -/
def markAsReturning (s : DBState) (phoneNumber : String) : DBState :=
  match findByPhoneNumber s phoneNumber with
  | none => s
  | some customer => (update s customer.id (fun c => { c with isNew := false })).1

end CustomerDatabase

namespace MessageDatabase

/-- `MessageDatabase.create`: assigns a fresh id and pushes,
unconditionally — there is no check on `(messageId, direction)`. -/
def create (s : DBState) (messageData : Message) : DBState × Message :=
  let message := { messageData with id := generateId s.nextId }
  ({ s with messages := s.messages ++ [message], nextId := s.nextId + 1 }, message)

/-- `MessageDatabase.updateStatus`: overwrite the status of the first
message whose channel message id matches; `none` (and no state change)
when no message matches. -/
def updateStatus (s : DBState) (messageId status : String) :
    DBState × Option Message :=
  let r := updateFirst (fun m => m.messageId == messageId)
    (fun m => { m with status := status }) s.messages
  ({ s with messages := r.1 }, r.2)

end MessageDatabase

/-- The default settings installed by `SettingsDatabase.get` on first
access (database.ts). -/
def defaultBotSettings : BotSettings where
  isActive := true
  businessHours :=
    { enabled := false
      timezone := "America/New_York"
      schedule :=
        [ ("monday", ⟨"09:00", "17:00", true⟩)
        , ("tuesday", ⟨"09:00", "17:00", true⟩)
        , ("wednesday", ⟨"09:00", "17:00", true⟩)
        , ("thursday", ⟨"09:00", "17:00", true⟩)
        , ("friday", ⟨"09:00", "17:00", true⟩)
        , ("saturday", ⟨"10:00", "14:00", false⟩)
        , ("sunday", ⟨"10:00", "14:00", false⟩) ] }
  autoReply :=
    { newCustomerMessage := "👋 Hello! Thank you for contacting us. We're here to help you. Someone from our team will get back to you shortly."
      returningCustomerMessage := "Hello again! Thanks for reaching out. How can we assist you today?"
      afterHoursMessage := "🌙 Thanks for your message! We're currently outside business hours. We'll respond as soon as possible during our next business day."
      fallbackMessage := "Thank you for your message. We've received it and will respond soon." }
  accessToken := ""
  phoneNumberId := ""

namespace SettingsDatabase

/-- `SettingsDatabase.get`: lazily installs the defaults on first access
and returns the singleton (never null afterwards). -/
def get (s : DBState) : DBState × BotSettings :=
  match s.botSettings with
  | some settings => (s, settings)
  | none => ({ s with botSettings := some defaultBotSettings }, defaultBotSettings)

end SettingsDatabase

/-- Inbound webhook message event (src/types/whatsapp.ts
`WhatsAppMessage`): `text = some body` models a present `text.body`,
`none` a media message.  The platform timestamp string is modelled as the
integer it parses to. -/
structure WhatsAppMessage where
  «from» : String
  id : String
  timestamp : Int
  text : Option String
  msgType : String
deriving Repr, DecidableEq

/-- Webhook contact hint (`{wa_id, profile: {name}}`). -/
structure WhatsAppContact where
  profileName : String
  wa_id : String
deriving Repr, DecidableEq

/-- The external world: wall clock, the WhatsApp send endpoint
(`some id` = HTTP success carrying `response.messages[0].id`, `none` =
any failure), and timezone resolution
(`some (weekday, "HH:MM")` = the locale strings `isBusinessHour`
computes, `none` = a thrown exception). -/
structure Env where
  now : Int
  sendResponse : String → String → Option String
  tzResolve : String → Option (String × String)

namespace WhatsAppAPI

/-- `WhatsAppAPI.sendMessage`: returns null when either credential is the
empty string, otherwise the outcome of the HTTP call. -/
def sendMessage (env : Env) (accessToken phoneNumberId toAddr message : String) :
    Option String :=
  if accessToken == "" || phoneNumberId == "" then none
  else env.sendResponse toAddr message

/-- Result of `WhatsAppAPI.parseIncomingMessage`. -/
structure ParsedMessage where
  «from» : String
  content : String
  messageId : String
  timestamp : Int
  msgType : String
deriving Repr, DecidableEq

/-- `WhatsAppAPI.parseIncomingMessage`: `message.text?.body ||
'[Media message]'` (note the JS `||`: an empty body also falls back), and
`new Date(parseInt(timestamp) * 1000)`. -/
def parseIncomingMessage (message : WhatsAppMessage) : ParsedMessage where
  «from» := message.«from»
  content :=
    match message.text with
    | some body => if body == "" then "[Media message]" else body
    | none => "[Media message]"
  messageId := message.id
  timestamp := message.timestamp * 1000
  msgType := message.msgType

end WhatsAppAPI

namespace BusinessHours

/-- Association-list lookup standing in for the JS object indexing
`schedule[dayOfWeek]`. -/
def lookupDay (schedule : List (String × DaySchedule)) (day : String) :
    Option DaySchedule :=
  (schedule.find? (fun kv => kv.1 == day)).map (fun kv => kv.2)

/-- `BusinessHours.isBusinessHour` (src/lib/whatsapp.ts).  `resolved` is
the outcome of the `toLocaleDateString`/`toLocaleTimeString` calls for
the configured timezone: `none` models a thrown exception, answered by
the catch-all `return true` (fail open). -/
def isBusinessHour (resolved : Option (String × String))
    (schedule : List (String × DaySchedule)) : Bool :=
  match resolved with
  | none => true
  | some (dayOfWeek, currentTime) =>
    match lookupDay schedule dayOfWeek with
    | none => false
    | some daySchedule =>
      if !daySchedule.enabled then false
      else strLe daySchedule.start currentTime &&
           strLe currentTime daySchedule.«end»

end BusinessHours

namespace MessageProcessor

/-- `MessageProcessor.shouldSendAutoReply`: the three anchored skip
regexes, the first and third case-insensitive, over the trimmed
content. -/
def shouldSendAutoReply (messageContent : String) : Bool :=
  let t := jsTrim messageContent
  let tl := jsToLower t
  let skip :=
    (tl == "ok" || tl == "okay" || tl == "thanks" || tl == "thank you" || tl == "got it")
    || (t == "👍" || t == "👌" || t == "✅" || t == "🙏")
    || (tl == "delivered" || tl == "read")
  !skip

/-- `MessageProcessor.findOrCreateCustomer`.  The contact's profile name
is used only when truthy (`name || placeholder` in JS: an empty name also
falls back to `Customer ` + last four characters of the phone number). -/
def findOrCreateCustomer (env : Env) (s : DBState) (phoneNumber : String)
    (contacts : List WhatsAppContact) : DBState × Customer :=
  match CustomerDatabase.findByPhoneNumber s phoneNumber with
  | some customer => (s, customer)
  | none =>
    let contact := contacts.find? (fun c => c.wa_id == phoneNumber)
    let customerName :=
      match contact with
      | some c =>
        if c.profileName == "" then "Customer " ++ jsTakeRight phoneNumber 4
        else c.profileName
      | none => "Customer " ++ jsTakeRight phoneNumber 4
    CustomerDatabase.create s
      { id := ""
        phoneNumber := phoneNumber
        name := customerName
        isNew := true
        status := "active"
        lastMessageAt := env.now
        firstMessageAt := env.now
        messageCount := 0 }

/-- `MessageProcessor.processAutoReply`: checks the activation flag and
the skip patterns, selects the template exactly as the nested
conditionals do, sends, and on success records the outgoing auto-reply.
Neither `RateLimiter` nor `MessageValidator` is consulted anywhere on
this path. -/
def processAutoReply (env : Env) (s : DBState) (customer : Customer)
    (messageContent : String) : DBState × Bool :=
  let r := SettingsDatabase.get s
  let s := r.1
  let settings := r.2
  if !settings.isActive then (s, false)
  else if !shouldSendAutoReply messageContent then (s, false)
  else
    let replyMessage :=
      if settings.businessHours.enabled then
        let isBH := BusinessHours.isBusinessHour
          (env.tzResolve settings.businessHours.timezone)
          settings.businessHours.schedule
        if !isBH then settings.autoReply.afterHoursMessage
        else if customer.isNew then settings.autoReply.newCustomerMessage
        else settings.autoReply.returningCustomerMessage
      else
        if customer.isNew then settings.autoReply.newCustomerMessage
        else settings.autoReply.returningCustomerMessage
    match WhatsAppAPI.sendMessage env settings.accessToken settings.phoneNumberId
        customer.phoneNumber replyMessage with
    | none => (s, false)
    | some responseId =>
      let r := MessageDatabase.create s
        { id := ""
          customerId := customer.id
          messageId := responseId
          direction := "outgoing"
          msgType := "text"
          content := replyMessage
          status := "sent"
          isAutoReply := true
          timestamp := env.now }
      (r.1, true)

/-- Result record of `processIncomingMessage`. -/
structure ProcessResult where
  success : Bool
  autoReplySent : Bool
  error : Option String
deriving Repr, DecidableEq

/-- `MessageProcessor.processIncomingMessage`: parse, resolve-or-create
the customer, append the incoming message (unconditionally — no
`(messageId, direction)` idempotency check), bump the customer's
activity, attempt the auto-reply, and clear `isNew` after a successful
first auto-reply.  `markAsRead` is external fire-and-forget I/O returning
a boolean and is a no-op on the state.  No `RateLimiter` gate is applied
here or at the webhook route that calls this. -/
def processIncomingMessage (env : Env) (s : DBState)
    (message : WhatsAppMessage) (contacts : List WhatsAppContact) :
    DBState × ProcessResult :=
  let parsed := WhatsAppAPI.parseIncomingMessage message
  let r₁ := findOrCreateCustomer env s parsed.«from» contacts
  let s := r₁.1
  let customer := r₁.2
  let r₂ := MessageDatabase.create s
    { id := ""
      customerId := customer.id
      messageId := parsed.messageId
      direction := "incoming"
      msgType := parsed.msgType
      content := parsed.content
      status := "delivered"
      isAutoReply := false
      timestamp := parsed.timestamp }
  let s := r₂.1
  let r₃ := CustomerDatabase.update s customer.id
    (fun c => { c with lastMessageAt := parsed.timestamp
                       messageCount := customer.messageCount + 1 })
  let s := r₃.1
  let r₄ := processAutoReply env s customer parsed.content
  let s := r₄.1
  let autoReplySent := r₄.2
  let s :=
    if autoReplySent && customer.isNew then
      CustomerDatabase.markAsReturning s parsed.«from»
    else s
  (s, { success := true, autoReplySent := autoReplySent, error := none })

/-- Result record of `sendManualMessage`. -/
structure SendResult where
  success : Bool
  messageId : Option String
  error : Option String
deriving Repr, DecidableEq

/-- `MessageProcessor.sendManualMessage`: the recipient lookup is
`CustomerDatabase.findByPhoneNumber('')` — the empty string, not the
`customerId` argument. -/
def sendManualMessage (env : Env) (s : DBState) (customerId content : String) :
    DBState × SendResult :=
  match CustomerDatabase.findByPhoneNumber s "" with
  | none => (s, { success := false, messageId := none, error := some "Customer not found" })
  | some customer =>
    let r := SettingsDatabase.get s
    let s := r.1
    let settings := r.2
    match WhatsAppAPI.sendMessage env settings.accessToken settings.phoneNumberId
        customer.phoneNumber content with
    | none => (s, { success := false, messageId := none
                    error := some "Failed to send message via WhatsApp API" })
    | some responseId =>
      let r₂ := MessageDatabase.create s
        { id := ""
          customerId := customerId
          messageId := responseId
          direction := "outgoing"
          msgType := "text"
          content := content
          status := "sent"
          isAutoReply := false
          timestamp := env.now }
      (r₂.1, { success := true, messageId := some r₂.2.id, error := none })

/-- The `validStatuses` array of `processStatusUpdate`. -/
def validStatuses : List String := ["sent", "delivered", "read", "failed"]

/-- `MessageProcessor.processStatusUpdate`: statuses outside
`validStatuses` are coerced to `"sent"`, then applied unconditionally by
`MessageDatabase.updateStatus` — there is no monotonicity check. -/
def processStatusUpdate (s : DBState) (messageId status : String) : DBState :=
  let messageStatus := if validStatuses.contains status then status else "sent"
  (MessageDatabase.updateStatus s messageId messageStatus).1

end MessageProcessor

namespace RateLimiter

/-- The static `requests: Map<string, number[]>` of the `RateLimiter`
class, as an association list (insertion order preserved, as in a JS
Map). -/
structure State where
  requests : List (String × List Int)
deriving Repr, DecidableEq

/-- `this.requests.get(phoneNumber) || []`. -/
def getRequests (st : State) (phoneNumber : String) : List Int :=
  match st.requests.find? (fun kv => kv.1 == phoneNumber) with
  | some kv => kv.2
  | none => []

/-- `this.requests.set(phoneNumber, times)`: overwrite an existing key in
place, else append. -/
def setRequests (st : State) (phoneNumber : String) (times : List Int) : State :=
  if st.requests.any (fun kv => kv.1 == phoneNumber) then
    { requests := st.requests.map
        (fun kv => if kv.1 == phoneNumber then (kv.1, times) else kv) }
  else { requests := st.requests ++ [(phoneNumber, times)] }

/-- `RateLimiter.isAllowed` (message-processor.ts).  `now` is the
`Date.now()` reading; the source's default arguments are `windowMs =
60000` and `maxRequests = 5`.  NOTE: this function is defined in the
source but never invoked by the webhook pipeline. -/
def isAllowed (st : State) (phoneNumber : String) (now windowMs : Int)
    (maxRequests : Nat) : State × Bool :=
  let windowStart := now - windowMs
  let existingRequests := getRequests st phoneNumber
  let recentRequests := existingRequests.filter (fun t => t > windowStart)
  if maxRequests ≤ recentRequests.length then (st, false)
  else (setRequests st phoneNumber (recentRequests ++ [now]), true)

/-- Feed a list of `(phoneNumber, now)` events through `isAllowed` with
the default window and limit, collecting each verdict. -/
def runEvents (st : State) : List (String × Int) → State × List Bool
  | [] => (st, [])
  | (phone, now) :: rest =>
    let r := isAllowed st phone now 60000 5
    let r' := runEvents r.1 rest
    (r'.1, r.2 :: r'.2)

end RateLimiter

namespace MessageValidator

/-- The static `recentMessages: Map<string, string[]>` of
`MessageValidator`. -/
structure State where
  recentMessages : List (String × List String)
deriving Repr, DecidableEq

/-- `this.recentMessages.get(key) || []`. -/
def getRecent (st : State) (phoneNumber : String) : List String :=
  match st.recentMessages.find? (fun kv => kv.1 == phoneNumber) with
  | some kv => kv.2
  | none => []

/-- `this.recentMessages.set(key, recent)`. -/
def setRecent (st : State) (phoneNumber : String) (recent : List String) : State :=
  if st.recentMessages.any (fun kv => kv.1 == phoneNumber) then
    { recentMessages := st.recentMessages.map
        (fun kv => if kv.1 == phoneNumber then (kv.1, recent) else kv) }
  else { recentMessages := st.recentMessages ++ [(phoneNumber, recent)] }

/-- `MessageValidator.isRepeatedMessage`: flags a body equal to one of
the sender's last 10 tracked bodies, then records it (push, and shift
the oldest entry past 10). -/
def isRepeatedMessage (st : State) (content phoneNumber : String) :
    State × Bool :=
  let recent := getRecent st phoneNumber
  let isDuplicate := recent.contains content
  let recent' := recent ++ [content]
  let recent'' := if 10 < recent'.length then recent'.drop 1 else recent'
  (setRecent st phoneNumber recent'', isDuplicate)

/-- Longest run of one repeated character, for the `(.)\1{10,}` spam
pattern. -/
def longestRunAux : List Char → Option Char → Nat → Nat → Nat
  | [], _, cur, best => max cur best
  | c :: cs, some p, cur, best =>
    if c = p then longestRunAux cs (some c) (cur + 1) best
    else longestRunAux cs (some c) 1 (max cur best)
  | c :: cs, none, _, best => longestRunAux cs (some c) 1 best

/-- `(.)\1{10,}`: some character repeated at least 11 times in a row. -/
def hasRepeatedCharRun (content : String) : Bool :=
  11 ≤ longestRunAux content.toList none 0 0

/-- `https?:\/\/[^\s]{50,}` starting at this position. -/
def longUrlAt (cs : List Char) : Bool :=
  ("https://".toList.isPrefixOf cs &&
    50 ≤ ((cs.drop 8).takeWhile (fun c => !c.isWhitespace)).length)
  || ("http://".toList.isPrefixOf cs &&
    50 ≤ ((cs.drop 7).takeWhile (fun c => !c.isWhitespace)).length)

/-- `https?:\/\/[^\s]{50,}` anywhere in the content. -/
def hasLongUrl : List Char → Bool
  | [] => false
  | c :: cs => longUrlAt (c :: cs) || hasLongUrl cs

/-- Word characters for the regex `\b` boundary. -/
def isWordChar (c : Char) : Bool :=
  c.isAlphanum || c = '_'

/-- Does word `w` match at the head of `cs`, with a word boundary on both
sides (`prev` is the character just before `cs`)? -/
def wordAt (w cs : List Char) (prev : Option Char) : Bool :=
  (match prev with
   | none => true
   | some p => !isWordChar p)
  && w.isPrefixOf cs
  && (match cs.drop w.length with
      | [] => true
      | c :: _ => !isWordChar c)

/-- `\bw\b` anywhere in the character list. -/
def containsWordAux (w : List Char) : List Char → Option Char → Bool
  | [], _ => false
  | c :: cs, prev => wordAt w (c :: cs) prev || containsWordAux w cs (some c)

/-- Case-insensitive whole-word containment, for the
`\b(free|prize|winner|urgent|act now)\b/gi` pattern. -/
def containsWord (content w : String) : Bool :=
  containsWordAux w.toList (jsToLower content).toList none

/-- The stateless spam patterns of `MessageValidator.detectSpam`. -/
def hasSpamPattern (content : String) : Bool :=
  hasRepeatedCharRun content
  || hasLongUrl content.toList
  || ["free", "prize", "winner", "urgent", "act now"].any (containsWord content)

/-- `MessageValidator.detectSpam`: stateless pattern check combined with
the per-sender repeated-body flag (both computed before the `||`).
NOTE: this function is defined in the source but never invoked by the
webhook pipeline or by `processAutoReply`. -/
def detectSpam (st : State) (content phoneNumber : String) : State × Bool :=
  let hasPattern := hasSpamPattern content
  let r := isRepeatedMessage st content phoneNumber
  (r.1, hasPattern || r.2)

end MessageValidator

/-- One webhook-driven pipeline operation: an inbound message event, a
status event, or a manual send — the three entry points that touch the
stores. -/
inductive PipelineOp where
  | incoming (message : WhatsAppMessage) (contacts : List WhatsAppContact) (env : Env)
  | statusUpdate (messageId status : String)
  | manual (customerId content : String) (env : Env)

/-- The state transformation of one pipeline operation. -/
def PipelineOp.apply (s : DBState) : PipelineOp → DBState
  | incoming message contacts env =>
    (MessageProcessor.processIncomingMessage env s message contacts).1
  | statusUpdate messageId status =>
    MessageProcessor.processStatusUpdate s messageId status
  | manual customerId content env =>
    (MessageProcessor.sendManualMessage env s customerId content).1

/-- Run a sequence of pipeline operations. -/
def runPipeline (s : DBState) : List PipelineOp → DBState
  | [] => s
  | op :: ops => runPipeline (op.apply s) ops

/-- The activity bump `processIncomingMessage` applies to the resolved
customer (`lastMessageAt`, `messageCount` from the snapshot). -/
def activityF (m : WhatsAppMessage) (customer : Customer) : Customer → Customer :=
  fun c => { c with lastMessageAt := m.timestamp * 1000
                    messageCount := customer.messageCount + 1 }

/-- The customer-list effect of `markAsReturning`: find by phone, clear
`isNew` on the record with the found id. -/
def afterReturning (p : String) (l : List Customer) : List Customer :=
  match l.find? (fun c => c.phoneNumber == p) with
  | none => l
  | some c₂ =>
    (updateFirst (fun c => c.id == c₂.id) (fun c => { c with isNew := false }) l).1

/-! Concrete fixtures used to evaluate the pipeline on closed inputs. -/

/-- Settings fixture: bot active, business-hours checking disabled,
credentials configured. -/
def sampleSettings : BotSettings where
  isActive := true
  businessHours := { enabled := false, timezone := "America/New_York", schedule := [] }
  autoReply := { newCustomerMessage := "NC", returningCustomerMessage := "RC",
                 afterHoursMessage := "AH", fallbackMessage := "FB" }
  accessToken := "tok"
  phoneNumberId := "pn1"

/-- Settings fixture with the bot switched off (suppresses auto-replies,
isolating persistence behaviour). -/
def inactiveSettings : BotSettings :=
  { sampleSettings with isActive := false }

/-- Environment fixture: every send succeeds with channel id
`"wamid.out"`; timezone resolution throws (irrelevant while
business-hours checking is disabled). -/
def sampleEnv : Env where
  now := 0
  sendResponse := fun _ _ => some "wamid.out"
  tzResolve := fun _ => none

/-- An empty store seeded with the given settings. -/
def emptyState (settings : BotSettings) : DBState where
  customers := []
  messages := []
  botSettings := some settings
  nextId := 0

/-- Inbound "Hello" from 15551234567 with channel message id "wamid.A". -/
def helloMessage : WhatsAppMessage where
  «from» := "15551234567"
  id := "wamid.A"
  timestamp := 1
  text := some "Hello"
  msgType := "text"

/-- The n-th of a burst of inbound events from the same sender. -/
def helloEvent (n : Nat) : WhatsAppMessage :=
  { helloMessage with id := "wamid.M" ++ toString n }

/-- Inbound "Hello there" with a chosen channel message id. -/
def helloThere (mid : String) : WhatsAppMessage :=
  { helloMessage with id := mid, text := some "Hello there" }

/-- The same webhook message delivered twice (same channel id, same
direction): first processing run. -/
def dupRun1 : DBState × MessageProcessor.ProcessResult :=
  MessageProcessor.processIncomingMessage sampleEnv (emptyState sampleSettings) helloMessage []

/-- Second processing run of the redelivered webhook message. -/
def dupRun2 : DBState × MessageProcessor.ProcessResult :=
  MessageProcessor.processIncomingMessage sampleEnv dupRun1.1 helloMessage []

/-- Six inbound events from one sender inside one 60-second window. -/
def rateEvents : List (String × Int) :=
  List.replicate 6 ("15551234567", 1000)

/-- The same six events pushed through the actual pipeline (bot inactive,
so only persistence happens). -/
def sixBurstState : DBState :=
  runPipeline (emptyState inactiveSettings)
    ((List.range 6).map (fun n => PipelineOp.incoming (helloEvent n) [] sampleEnv))

/-- Two deliveries of an identical body from one sender. -/
def dupBodyRun1 : DBState × MessageProcessor.ProcessResult :=
  MessageProcessor.processIncomingMessage sampleEnv (emptyState sampleSettings)
    (helloThere "wamid.B1") []

/-- Second delivery of the identical body. -/
def dupBodyRun2 : DBState × MessageProcessor.ProcessResult :=
  MessageProcessor.processIncomingMessage sampleEnv dupBodyRun1.1 (helloThere "wamid.B2") []

/-- Validator verdict on the first "Hello there" from this sender. -/
def dupFlag1 : MessageValidator.State × Bool :=
  MessageValidator.detectSpam ⟨[]⟩ "Hello there" "15551234567"

/-- Validator verdict on the repeated "Hello there". -/
def dupFlag2 : MessageValidator.State × Bool :=
  MessageValidator.detectSpam dupFlag1.1 "Hello there" "15551234567"

/-- An outgoing message already recorded with status "read". -/
def readMessage : Message where
  id := "id_9"
  customerId := "id_0"
  messageId := "wamid.X"
  direction := "outgoing"
  msgType := "text"
  content := "hi"
  status := "read"
  isAutoReply := true
  timestamp := 5

/-- Store holding only `readMessage`. -/
def readState : DBState where
  customers := []
  messages := [readMessage]
  botSettings := some sampleSettings
  nextId := 10

/-- A webhook contact hint whose profile name is the empty string. -/
def hintedContact : WhatsAppContact where
  profileName := ""
  wa_id := "15551234567"

/-- A stored customer still flagged new. -/
def newCustomerFixture : Customer where
  id := "id_0"
  phoneNumber := "15551234567"
  name := "Ana"
  isNew := true
  status := "active"
  lastMessageAt := 0
  firstMessageAt := 0
  messageCount := 1

/-- Store holding only `newCustomerFixture`. -/
def newCustomerState : DBState where
  customers := [newCustomerFixture]
  messages := []
  botSettings := some sampleSettings
  nextId := 1

/-! General lemmas about `updateFirst`, the find-index-and-overwrite
primitive both databases use. -/

theorem updateFirst_map {α β : Type} (g : α → β) (pred : α → Bool) (f : α → α)
    (hg : ∀ x, g (f x) = g x) (l : List α) :
    (updateFirst pred f l).1.map g = l.map g := by
  induction l with
  | nil => rfl
  | cons a as ih =>
    rw [updateFirst]
    by_cases ha : pred a = true
    · simp [ha, hg]
    · simp [ha, ih]

theorem mem_updateFirst {α : Type} (pred : α → Bool) (f : α → α) (l : List α) :
    ∀ x ∈ (updateFirst pred f l).1, x ∈ l ∨ ∃ y ∈ l, pred y = true ∧ x = f y := by
  induction l with
  | nil => intro x hx; simp [updateFirst] at hx
  | cons a as ih =>
    intro x hx
    rw [updateFirst] at hx
    by_cases ha : pred a = true
    · simp [ha] at hx
      rcases hx with h | h
      · exact Or.inr ⟨a, List.mem_cons_self a as, ha, h⟩
      · exact Or.inl (List.mem_cons_of_mem a h)
    · simp [ha] at hx
      rcases hx with h | h
      · exact Or.inl (h ▸ List.mem_cons_self a as)
      · rcases ih x h with h' | ⟨y, hy, hpy, hxy⟩
        · exact Or.inl (List.mem_cons_of_mem a h')
        · exact Or.inr ⟨y, List.mem_cons_of_mem a hy, hpy, hxy⟩

theorem find?_updateFirst_self {α : Type} (q : α → Bool) (f : α → α)
    (hq : ∀ x, q (f x) = q x) (l : List α) :
    (updateFirst q f l).1.find? q = (l.find? q).map f := by
  induction l with
  | nil => rfl
  | cons a as ih =>
    rw [updateFirst]
    by_cases ha : q a = true
    · rw [if_pos ha]
      rw [List.find?_cons_of_pos _ ((hq a).trans ha), List.find?_cons_of_pos _ ha]
      rfl
    · rw [if_neg ha]
      have ha' : ¬ q a = true := ha
      simp only [List.find?_cons_of_neg _ ha']
      exact ih

theorem find?_updateFirst_or {α : Type} (q pred : α → Bool) (f : α → α)
    (hq : ∀ x, q (f x) = q x) (l : List α) :
    (updateFirst pred f l).1.find? q = l.find? q ∨
      ∃ c, l.find? q = some c ∧ (updateFirst pred f l).1.find? q = some (f c) := by
  induction l with
  | nil => exact Or.inl rfl
  | cons a as ih =>
    rw [updateFirst]
    by_cases hp : pred a = true
    · rw [if_pos hp]
      by_cases ha : q a = true
      · exact Or.inr ⟨a, by
          rw [List.find?_cons_of_pos _ ha], by
          rw [List.find?_cons_of_pos _ ((hq a).trans ha)]⟩
      · rw [List.find?_cons_of_neg _ ha,
          List.find?_cons_of_neg _ (show ¬ q (f a) = true by rw [hq]; exact ha)]
        exact Or.inl rfl
    · rw [if_neg hp]
      by_cases ha : q a = true
      · rw [List.find?_cons_of_pos _ ha, List.find?_cons_of_pos _ ha]
        exact Or.inl rfl
      · rw [List.find?_cons_of_neg _ ha, List.find?_cons_of_neg _ ha]
        exact ih

theorem find?_updateFirst_of_absent {α : Type} (q pred : α → Bool) (f : α → α)
    (l : List α) (h : ∀ x ∈ l, pred x = true → q x = false)
    (hq : ∀ x, q (f x) = q x) :
    (updateFirst pred f l).1.find? q = l.find? q := by
  induction l with
  | nil => rfl
  | cons a as ih =>
    rw [updateFirst]
    by_cases hp : pred a = true
    · rw [if_pos hp]
      have ha : q a = false := h a (List.mem_cons_self a as) hp
      rw [List.find?_cons_of_neg _ (by simp [hq, ha]),
        List.find?_cons_of_neg _ (by simp [ha])]
    · rw [if_neg hp]
      by_cases ha : q a = true
      · rw [List.find?_cons_of_pos _ ha, List.find?_cons_of_pos _ ha]
      · rw [List.find?_cons_of_neg _ ha, List.find?_cons_of_neg _ ha]
        exact ih (fun x hx => h x (List.mem_cons_of_mem a hx))

theorem find?_updateFirst_unique {α : Type} (q pred : α → Bool) (f : α → α)
    (c : α) (l : List α) (hfind : l.find? q = some c)
    (hpred : pred c = true)
    (huniq : ∀ x ∈ l, pred x = true → x = c)
    (hq : ∀ x, q (f x) = q x) :
    (updateFirst pred f l).1.find? q = some (f c) := by
  induction l with
  | nil => simp at hfind
  | cons a as ih =>
    rw [updateFirst]
    by_cases ha : q a = true
    · rw [List.find?_cons_of_pos _ ha] at hfind
      have hac : a = c := by injection hfind
      rw [if_pos (hac ▸ hpred)]
      rw [List.find?_cons_of_pos _ (by rw [hq]; exact ha)]
      rw [hac]
    · rw [List.find?_cons_of_neg _ ha] at hfind
      have hcas : c ∈ as := List.mem_of_find?_eq_some hfind
      have hpa : ¬ pred a = true := by
        intro hpa
        have hac : a = c := huniq a (List.mem_cons_self a as) hpa
        have hqc : q c = true := List.find?_some hfind
        rw [hac] at ha
        exact ha hqc
      rw [if_neg hpa]
      rw [List.find?_cons_of_neg _ ha]
      exact ih hfind (fun x hx => huniq x (List.mem_cons_of_mem a hx))

/-! Which parts of the store each operation can touch. -/

theorem processAutoReply_customers (env : Env) (s : DBState) (customer : Customer)
    (content : String) :
    (MessageProcessor.processAutoReply env s customer content).1.customers = s.customers := by
  rw [MessageProcessor.processAutoReply]
  cases h : s.botSettings <;>
    simp only [SettingsDatabase.get, h] <;>
    (repeat' split) <;>
    rfl

theorem processStatusUpdate_customers (s : DBState) (messageId status : String) :
    (MessageProcessor.processStatusUpdate s messageId status).customers = s.customers := rfl

theorem sendManualMessage_customers (env : Env) (s : DBState) (customerId content : String) :
    (MessageProcessor.sendManualMessage env s customerId content).1.customers = s.customers := by
  rw [MessageProcessor.sendManualMessage]
  (repeat' split) <;>
    first
    | rfl
    | (cases h : s.botSettings <;> simp only [SettingsDatabase.get, h] <;> (repeat' split) <;> rfl)

theorem bool_and_true_iff {a b : Bool} : (a && b) = true ↔ a = true ∧ b = true := by
  cases a <;> cases b <;> simp

theorem markAsReturning_customers (s : DBState) (p : String) :
    (CustomerDatabase.markAsReturning s p).customers = afterReturning p s.customers := by
  rw [CustomerDatabase.markAsReturning, CustomerDatabase.findByPhoneNumber, afterReturning]
  cases h : s.customers.find? (fun c => c.phoneNumber == p) <;>
    simp [CustomerDatabase.update]

theorem messageCreate_customers (s : DBState) (d : Message) :
    ((MessageDatabase.create s d).1).customers = s.customers := rfl

theorem update_customers (s : DBState) (id : String) (f : Customer → Customer) :
    ((CustomerDatabase.update s id f).1).customers =
      (updateFirst (fun c => c.id == id) f s.customers).1 := rfl

theorem processIncomingMessage_customers (env : Env) (s : DBState)
    (m : WhatsAppMessage) (contacts : List WhatsAppContact) :
    ∃ customer base,
      ((CustomerDatabase.findByPhoneNumber s m.«from» = some customer ∧ base = s.customers)
        ∨ (CustomerDatabase.findByPhoneNumber s m.«from» = none
            ∧ base = s.customers ++ [customer]
            ∧ customer.phoneNumber = m.«from» ∧ customer.isNew = true
            ∧ customer.id = generateId s.nextId))
      ∧ (((MessageProcessor.processIncomingMessage env s m contacts).2.autoReplySent = true
            ∧ customer.isNew = true
            ∧ (MessageProcessor.processIncomingMessage env s m contacts).1.customers =
                afterReturning m.«from»
                  (updateFirst (fun c => c.id == customer.id) (activityF m customer) base).1)
        ∨ (¬((MessageProcessor.processIncomingMessage env s m contacts).2.autoReplySent = true
              ∧ customer.isNew = true)
            ∧ (MessageProcessor.processIncomingMessage env s m contacts).1.customers =
                (updateFirst (fun c => c.id == customer.id) (activityF m customer) base).1)) := by
  cases hf : CustomerDatabase.findByPhoneNumber s m.«from» with
  | some c =>
    refine ⟨c, s.customers, Or.inl ⟨rfl, rfl⟩, ?_⟩
    rw [MessageProcessor.processIncomingMessage]
    cases htext : m.text with
    | none =>
      simp only [WhatsAppAPI.parseIncomingMessage, htext,
        MessageProcessor.findOrCreateCustomer, hf, processAutoReply_customers,
        markAsReturning_customers, messageCreate_customers, update_customers,
        apply_ite DBState.customers]
      split
      next h => exact Or.inl ⟨(bool_and_true_iff.mp h).1, (bool_and_true_iff.mp h).2, rfl⟩
      next h => exact Or.inr ⟨fun hh => h (bool_and_true_iff.mpr ⟨hh.1, hh.2⟩), rfl⟩
    | some body =>
      simp only [WhatsAppAPI.parseIncomingMessage, htext,
        MessageProcessor.findOrCreateCustomer, hf]
      by_cases hbody : (body == "") = true
      · rw [if_pos hbody]
        simp only [processAutoReply_customers, markAsReturning_customers,
          messageCreate_customers, update_customers, apply_ite DBState.customers]
        split
        next h => exact Or.inl ⟨(bool_and_true_iff.mp h).1, (bool_and_true_iff.mp h).2, rfl⟩
        next h => exact Or.inr ⟨fun hh => h (bool_and_true_iff.mpr ⟨hh.1, hh.2⟩), rfl⟩
      · rw [if_neg hbody]
        simp only [processAutoReply_customers, markAsReturning_customers,
          messageCreate_customers, update_customers, apply_ite DBState.customers]
        split
        next h => exact Or.inl ⟨(bool_and_true_iff.mp h).1, (bool_and_true_iff.mp h).2, rfl⟩
        next h => exact Or.inr ⟨fun hh => h (bool_and_true_iff.mpr ⟨hh.1, hh.2⟩), rfl⟩
  | none =>
    have hbase : (MessageProcessor.findOrCreateCustomer env s m.«from» contacts).1.customers
        = s.customers ++ [(MessageProcessor.findOrCreateCustomer env s m.«from» contacts).2] := by
      simp [MessageProcessor.findOrCreateCustomer, hf, CustomerDatabase.create]
    have hphone : (MessageProcessor.findOrCreateCustomer env s m.«from» contacts).2.phoneNumber
        = m.«from» := by
      simp [MessageProcessor.findOrCreateCustomer, hf, CustomerDatabase.create]
    have hnew : (MessageProcessor.findOrCreateCustomer env s m.«from» contacts).2.isNew
        = true := by
      simp [MessageProcessor.findOrCreateCustomer, hf, CustomerDatabase.create]
    have hid : (MessageProcessor.findOrCreateCustomer env s m.«from» contacts).2.id
        = generateId s.nextId := by
      simp [MessageProcessor.findOrCreateCustomer, hf, CustomerDatabase.create]
    refine ⟨_, _, Or.inr ⟨rfl, rfl, hphone, hnew, hid⟩, ?_⟩
    rw [MessageProcessor.processIncomingMessage]
    cases htext : m.text with
    | none =>
      simp only [WhatsAppAPI.parseIncomingMessage, htext, processAutoReply_customers,
        markAsReturning_customers, messageCreate_customers, update_customers,
        apply_ite DBState.customers, hbase]
      split
      next h => exact Or.inl ⟨(bool_and_true_iff.mp h).1, (bool_and_true_iff.mp h).2, rfl⟩
      next h => exact Or.inr ⟨fun hh => h (bool_and_true_iff.mpr ⟨hh.1, hh.2⟩), rfl⟩
    | some body =>
      simp only [WhatsAppAPI.parseIncomingMessage, htext]
      by_cases hbody : (body == "") = true
      · rw [if_pos hbody]
        simp only [processAutoReply_customers, markAsReturning_customers,
          messageCreate_customers, update_customers, apply_ite DBState.customers, hbase]
        split
        next h => exact Or.inl ⟨(bool_and_true_iff.mp h).1, (bool_and_true_iff.mp h).2, rfl⟩
        next h => exact Or.inr ⟨fun hh => h (bool_and_true_iff.mpr ⟨hh.1, hh.2⟩), rfl⟩
      · rw [if_neg hbody]
        simp only [processAutoReply_customers, markAsReturning_customers,
          messageCreate_customers, update_customers, apply_ite DBState.customers, hbase]
        split
        next h => exact Or.inl ⟨(bool_and_true_iff.mp h).1, (bool_and_true_iff.mp h).2, rfl⟩
        next h => exact Or.inr ⟨fun hh => h (bool_and_true_iff.mpr ⟨hh.1, hh.2⟩), rfl⟩

theorem findByPhoneNumber_congr (s t : DBState) (p : String)
    (h : s.customers = t.customers) :
    CustomerDatabase.findByPhoneNumber s p = CustomerDatabase.findByPhoneNumber t p := by
  rw [CustomerDatabase.findByPhoneNumber, CustomerDatabase.findByPhoneNumber, h]

theorem find?_isNewFalse_updateFirst (pred : Customer → Bool) (f : Customer → Customer)
    (hphone : ∀ x, (f x).phoneNumber = x.phoneNumber)
    (hmono : ∀ x, x.isNew = false → (f x).isNew = false)
    (l : List Customer) (p : String) (c : Customer)
    (h : l.find? (fun x => x.phoneNumber == p) = some c) (hc : c.isNew = false) :
    ∃ c', (updateFirst pred f l).1.find? (fun x => x.phoneNumber == p) = some c'
      ∧ c'.isNew = false := by
  rcases find?_updateFirst_or (fun x => x.phoneNumber == p) pred f
      (fun x => by simp only [hphone]) l with heq | ⟨c₀, h₀, h₁⟩
  · exact ⟨c, heq.trans h, hc⟩
  · have hcc : c₀ = c := by
      have := h₀.symm.trans h
      injection this
    subst hcc
    exact ⟨f c₀, h₁, hmono c₀ hc⟩

theorem find?_isNewFalse_afterReturning (p' : String) (l : List Customer) (p : String)
    (c : Customer) (h : l.find? (fun x => x.phoneNumber == p) = some c)
    (hc : c.isNew = false) :
    ∃ c', (afterReturning p' l).find? (fun x => x.phoneNumber == p) = some c'
      ∧ c'.isNew = false := by
  rw [afterReturning]
  cases h₂ : l.find? (fun x => x.phoneNumber == p') with
  | none => exact ⟨c, h, hc⟩
  | some c₂ =>
    exact find?_isNewFalse_updateFirst (fun x => x.id == c₂.id)
      (fun x => { x with isNew := false }) (fun x => rfl) (fun x _ => rfl) l p c h hc

theorem step_preserves_isNewFalse (s : DBState) (op : PipelineOp) (p : String) (c : Customer)
    (hfind : CustomerDatabase.findByPhoneNumber s p = some c) (hc : c.isNew = false) :
    ∃ c', CustomerDatabase.findByPhoneNumber (op.apply s) p = some c'
      ∧ c'.isNew = false := by
  cases op with
  | statusUpdate mid st =>
    exact ⟨c, (findByPhoneNumber_congr _ _ p (processStatusUpdate_customers s mid st)).trans
      hfind, hc⟩
  | manual cid content env =>
    exact ⟨c, (findByPhoneNumber_congr _ _ p
      (sendManualMessage_customers env s cid content)).trans hfind, hc⟩
  | incoming m contacts env =>
    obtain ⟨customer, base, hbase, hout⟩ := processIncomingMessage_customers env s m contacts
    have hfindBase : base.find? (fun x => x.phoneNumber == p) = some c := by
      rcases hbase with ⟨hf, hbeq⟩ | ⟨hf, hbeq, hphone, hnew, hid⟩
      · rw [hbeq]
        rw [CustomerDatabase.findByPhoneNumber] at hfind
        exact hfind
      · rw [hbeq, List.find?_append]
        rw [CustomerDatabase.findByPhoneNumber] at hfind
        rw [hfind]
        rfl
    obtain ⟨c₁, hc₁, hc₁new⟩ := find?_isNewFalse_updateFirst
      (fun x => x.id == customer.id) (activityF m customer) (fun x => rfl)
      (fun x hx => hx) base p c hfindBase hc
    rcases hout with ⟨hb, hnew', hcust⟩ | ⟨hnb, hcust⟩
    · obtain ⟨c₂, hc₂, hc₂new⟩ := find?_isNewFalse_afterReturning m.«from» _ p c₁ hc₁ hc₁new
      refine ⟨c₂, ?_, hc₂new⟩
      rw [CustomerDatabase.findByPhoneNumber]
      show ((MessageProcessor.processIncomingMessage env s m contacts).1).customers.find? _ = _
      rw [hcust]
      exact hc₂
    · refine ⟨c₁, ?_, hc₁new⟩
      rw [CustomerDatabase.findByPhoneNumber]
      show ((MessageProcessor.processIncomingMessage env s m contacts).1).customers.find? _ = _
      rw [hcust]
      exact hc₁

theorem runPipeline_preserves_isNewFalse (ops : List PipelineOp) :
    ∀ (s : DBState) (p : String) (c : Customer),
      CustomerDatabase.findByPhoneNumber s p = some c → c.isNew = false →
      ∃ c', CustomerDatabase.findByPhoneNumber (runPipeline s ops) p = some c'
        ∧ c'.isNew = false := by
  induction ops with
  | nil => exact fun s p c h hc => ⟨c, h, hc⟩
  | cons op ops ih =>
    intro s p c h hc
    obtain ⟨c', h', hc'⟩ := step_preserves_isNewFalse s op p c h hc
    exact ih (op.apply s) p c' h' hc'

theorem processIncoming_flip_iff (env : Env) (s : DBState) (m : WhatsAppMessage)
    (contacts : List WhatsAppContact) (c : Customer)
    (hnodup : (s.customers.map Customer.id).Nodup)
    (hfind : CustomerDatabase.findByPhoneNumber s m.«from» = some c)
    (hc : c.isNew = true) :
    ∃ c', CustomerDatabase.findByPhoneNumber
        (MessageProcessor.processIncomingMessage env s m contacts).1 m.«from» = some c'
      ∧ (c'.isNew = false ↔
          (MessageProcessor.processIncomingMessage env s m contacts).2.autoReplySent = true) := by
  obtain ⟨customer, base, hbase, hout⟩ := processIncomingMessage_customers env s m contacts
  have hbase' : CustomerDatabase.findByPhoneNumber s m.«from» = some customer
      ∧ base = s.customers := by
    rcases hbase with h | ⟨hf, _⟩
    · exact h
    · rw [hf] at hfind
      exact absurd hfind (by simp)
  obtain ⟨hf, hbeq⟩ := hbase'
  subst hbeq
  have hcc : customer = c := by
    have := hf.symm.trans hfind
    injection this
  subst hcc
  have hfind' : s.customers.find? (fun x => x.phoneNumber == m.«from») = some customer := by
    rw [CustomerDatabase.findByPhoneNumber] at hfind
    exact hfind
  have hmem : customer ∈ s.customers := List.mem_of_find?_eq_some hfind'
  have huniq : ∀ x ∈ s.customers, (x.id == customer.id) = true → x = customer := by
    intro x hx hbeqid
    exact List.inj_on_of_nodup_map hnodup hx hmem (beq_iff_eq.mp hbeqid)
  have hfindL : (updateFirst (fun x => x.id == customer.id) (activityF m customer)
      s.customers).1.find? (fun x => x.phoneNumber == m.«from»)
      = some (activityF m customer customer) :=
    find?_updateFirst_unique _ _ _ customer s.customers hfind'
      (beq_self_eq_true customer.id) huniq (fun x => rfl)
  have hLids : ((updateFirst (fun x => x.id == customer.id) (activityF m customer)
      s.customers).1.map Customer.id) = s.customers.map Customer.id :=
    updateFirst_map Customer.id (fun x => x.id == customer.id) (activityF m customer)
      (fun x => rfl) s.customers
  rcases hout with ⟨hb, hnew', hcust⟩ | ⟨hnb, hcust⟩
  · have hmemL : activityF m customer customer ∈
        (updateFirst (fun x => x.id == customer.id) (activityF m customer) s.customers).1 :=
      List.mem_of_find?_eq_some hfindL
    have huniqL : ∀ x ∈ (updateFirst (fun x => x.id == customer.id) (activityF m customer)
        s.customers).1, (x.id == (activityF m customer customer).id) = true →
        x = activityF m customer customer := by
      intro x hx hbeqid
      refine List.inj_on_of_nodup_map ?_ hx hmemL (beq_iff_eq.mp hbeqid)
      rw [hLids]
      exact hnodup
    have hfinal := find?_updateFirst_unique (fun x => x.phoneNumber == m.«from»)
      (fun x => x.id == (activityF m customer customer).id)
      (fun x => { x with isNew := false }) (activityF m customer customer) _
      hfindL (beq_self_eq_true _) huniqL (fun x => rfl)
    refine ⟨{ activityF m customer customer with isNew := false }, ?_, ?_⟩
    · rw [CustomerDatabase.findByPhoneNumber]
      show ((MessageProcessor.processIncomingMessage env s m contacts).1).customers.find? _ = _
      rw [hcust, afterReturning, hfindL]
      exact hfinal
    · exact ⟨fun _ => hb, fun _ => rfl⟩
  · have hbfalse :
        (MessageProcessor.processIncomingMessage env s m contacts).2.autoReplySent ≠ true :=
      fun hb => hnb ⟨hb, hc⟩
    refine ⟨activityF m customer customer, ?_, ?_⟩
    · rw [CustomerDatabase.findByPhoneNumber]
      show ((MessageProcessor.processIncomingMessage env s m contacts).1).customers.find? _ = _
      rw [hcust]
      exact hfindL
    · constructor
      · intro hfalse
        rw [show (activityF m customer customer).isNew = customer.isNew from rfl, hc] at hfalse
        exact absurd hfalse (by decide)
      · intro hb
        exact absurd hb hbfalse

theorem processIncoming_other_sender (env : Env) (s : DBState) (m : WhatsAppMessage)
    (contacts : List WhatsAppContact) (p : String)
    (hnodup : (s.customers.map Customer.id).Nodup)
    (hfresh : ∀ x ∈ s.customers, x.id ≠ generateId s.nextId)
    (hne : p ≠ m.«from») :
    CustomerDatabase.findByPhoneNumber
        (MessageProcessor.processIncomingMessage env s m contacts).1 p
      = CustomerDatabase.findByPhoneNumber s p := by
  obtain ⟨customer, base, hbase, hout⟩ := processIncomingMessage_customers env s m contacts
  have hcphone : customer.phoneNumber = m.«from» := by
    rcases hbase with ⟨hf, _⟩ | ⟨_, _, hphone, _, _⟩
    · rw [CustomerDatabase.findByPhoneNumber] at hf
      have h' := List.find?_some hf
      exact beq_iff_eq.mp h'
    · exact hphone
  have hmemc : customer ∈ base := by
    rcases hbase with ⟨hf, hbeq⟩ | ⟨_, hbeq, _, _, _⟩
    · rw [CustomerDatabase.findByPhoneNumber] at hf
      rw [hbeq]
      exact List.mem_of_find?_eq_some hf
    · rw [hbeq]
      exact List.mem_append_right _ (List.mem_singleton.mpr rfl)
  have hbids : (base.map Customer.id).Nodup := by
    rcases hbase with ⟨_, hbeq⟩ | ⟨_, hbeq, _, _, hid⟩
    · rw [hbeq]; exact hnodup
    · rw [hbeq, List.map_append, List.nodup_append]
      refine ⟨hnodup, List.nodup_singleton _, ?_⟩
      intro a ha hb
      obtain ⟨x, hx, hxa⟩ := List.mem_map.mp ha
      have hb' : a = customer.id := by simpa using hb
      exact hfresh x hx ((hxa.trans hb').trans hid)
  have hcp : (customer.phoneNumber == p) = false :=
    beq_eq_false_iff_ne.mpr (by rw [hcphone]; exact fun hh => hne hh.symm)
  have hfindbase : base.find? (fun x => x.phoneNumber == p)
      = s.customers.find? (fun x => x.phoneNumber == p) := by
    rcases hbase with ⟨_, hbeq⟩ | ⟨_, hbeq, hphone, _, _⟩
    · rw [hbeq]
    · rw [hbeq, List.find?_append]
      have hnone : ([customer].find? fun x => x.phoneNumber == p) = none := by
        rw [List.find?_cons_of_neg _ (by simp [hcp])]
        rfl
      rw [hnone]
      cases s.customers.find? (fun x => x.phoneNumber == p) <;> rfl
  have habsent : ∀ x ∈ base, (x.id == customer.id) = true → (x.phoneNumber == p) = false := by
    intro x hx hbeqid
    have hxc : x = customer := List.inj_on_of_nodup_map hbids hx hmemc (beq_iff_eq.mp hbeqid)
    subst hxc
    exact hcp
  have hL : (updateFirst (fun x => x.id == customer.id) (activityF m customer) base).1.find?
      (fun x => x.phoneNumber == p) = base.find? (fun x => x.phoneNumber == p) :=
    find?_updateFirst_of_absent (fun x => x.phoneNumber == p)
      (fun x => x.id == customer.id) (activityF m customer) base habsent (fun x => rfl)
  have hLids : ((updateFirst (fun x => x.id == customer.id) (activityF m customer) base).1.map
      Customer.id) = base.map Customer.id :=
    updateFirst_map Customer.id (fun x => x.id == customer.id) (activityF m customer)
      (fun x => rfl) base
  rcases hout with ⟨hb, hnew', hcust⟩ | ⟨hnb, hcust⟩
  · rw [CustomerDatabase.findByPhoneNumber, CustomerDatabase.findByPhoneNumber]
    show ((MessageProcessor.processIncomingMessage env s m contacts).1).customers.find? _ = _
    rw [hcust, afterReturning]
    cases h₂ : (updateFirst (fun x => x.id == customer.id) (activityF m customer)
        base).1.find? (fun x => x.phoneNumber == m.«from») with
    | none =>
      show (updateFirst (fun x => x.id == customer.id) (activityF m customer)
        base).1.find? (fun x => x.phoneNumber == p) = _
      rw [hL, hfindbase]
    | some c₂ =>
      show ((updateFirst (fun x => x.id == c₂.id) (fun x => { x with isNew := false })
        (updateFirst (fun x => x.id == customer.id) (activityF m customer)
          base).1).1).find? (fun x => x.phoneNumber == p) = _
      have hc₂m : c₂.phoneNumber = m.«from» := by
        have h' := List.find?_some h₂
        exact beq_iff_eq.mp h'
      have hmem₂ : c₂ ∈ (updateFirst (fun x => x.id == customer.id) (activityF m customer)
          base).1 := List.mem_of_find?_eq_some h₂
      have habsent₂ : ∀ x ∈ (updateFirst (fun x => x.id == customer.id) (activityF m customer)
          base).1, (x.id == c₂.id) = true → (x.phoneNumber == p) = false := by
        intro x hx hbeqid
        have hxc : x = c₂ := List.inj_on_of_nodup_map (by rw [hLids]; exact hbids) hx hmem₂
          (beq_iff_eq.mp hbeqid)
        subst hxc
        exact beq_eq_false_iff_ne.mpr (by rw [hc₂m]; exact fun hh => hne hh.symm)
      have hfinal := find?_updateFirst_of_absent (fun x : Customer => x.phoneNumber == p)
        (fun x : Customer => x.id == c₂.id) (fun x : Customer => { x with isNew := false })
        (updateFirst (fun x => x.id == customer.id) (activityF m customer) base).1
        habsent₂ (fun x => rfl)
      rw [hfinal, hL, hfindbase]
  · rw [CustomerDatabase.findByPhoneNumber, CustomerDatabase.findByPhoneNumber]
    show ((MessageProcessor.processIncomingMessage env s m contacts).1).customers.find? _ = _
    rw [hcust, hL, hfindbase]

/-- Claim C8: across any sequence of pipeline operations a customer's
isNew flag, once false, never returns to true (so the true→false
transition happens at most once); on an inbound message from the
customer's own number the flag flips to false exactly when the
auto-reply dispatch succeeds (for a well-formed store with distinct
customer ids); and status updates, manual sends, and inbound messages
from other senders never change the customer's record as found by phone
number. -/
theorem isNew_transition_spec :
    (∀ (s : DBState) (ops : List PipelineOp) (p : String) (c : Customer),
        CustomerDatabase.findByPhoneNumber s p = some c → c.isNew = false →
        ∃ c', CustomerDatabase.findByPhoneNumber (runPipeline s ops) p = some c'
          ∧ c'.isNew = false)
    ∧ (∀ (env : Env) (s : DBState) (m : WhatsAppMessage)
        (contacts : List WhatsAppContact) (c : Customer),
        (s.customers.map Customer.id).Nodup →
        CustomerDatabase.findByPhoneNumber s m.«from» = some c → c.isNew = true →
        ∃ c', CustomerDatabase.findByPhoneNumber
            (MessageProcessor.processIncomingMessage env s m contacts).1 m.«from» = some c'
          ∧ (c'.isNew = false ↔
              (MessageProcessor.processIncomingMessage env s m contacts).2.autoReplySent
                = true))
    ∧ (∀ (s : DBState) (messageId status p : String),
        CustomerDatabase.findByPhoneNumber
            (MessageProcessor.processStatusUpdate s messageId status) p
          = CustomerDatabase.findByPhoneNumber s p)
    ∧ (∀ (env : Env) (s : DBState) (customerId content p : String),
        CustomerDatabase.findByPhoneNumber
            (MessageProcessor.sendManualMessage env s customerId content).1 p
          = CustomerDatabase.findByPhoneNumber s p)
    ∧ (∀ (env : Env) (s : DBState) (m : WhatsAppMessage)
        (contacts : List WhatsAppContact) (p : String),
        (s.customers.map Customer.id).Nodup →
        (∀ x ∈ s.customers, x.id ≠ generateId s.nextId) → p ≠ m.«from» →
        CustomerDatabase.findByPhoneNumber
            (MessageProcessor.processIncomingMessage env s m contacts).1 p
          = CustomerDatabase.findByPhoneNumber s p) :=
  ⟨fun s ops p c h hc => runPipeline_preserves_isNewFalse ops s p c h hc,
   fun env s m contacts c hn hf hc => processIncoming_flip_iff env s m contacts c hn hf hc,
   fun s mid st p => findByPhoneNumber_congr _ _ p (processStatusUpdate_customers s mid st),
   fun env s cid content p =>
     findByPhoneNumber_congr _ _ p (sendManualMessage_customers env s cid content),
   fun env s m contacts p hn hfr hne =>
     processIncoming_other_sender env s m contacts p hn hfr hne⟩

/-- Witness for C8: the stored new customer's flag flips exactly when
the auto-reply for their own inbound "Hello" succeeds. -/
theorem isNew_transition_spec_witness :
    ∃ c', CustomerDatabase.findByPhoneNumber
        (MessageProcessor.processIncomingMessage sampleEnv newCustomerState
          helloMessage []).1 helloMessage.«from» = some c'
      ∧ (c'.isNew = false ↔
          (MessageProcessor.processIncomingMessage sampleEnv newCustomerState
            helloMessage []).2.autoReplySent = true) :=
  isNew_transition_spec.2.1 sampleEnv newCustomerState helloMessage [] newCustomerFixture
    (by decide) (by decide) (by decide)

/-- Claim C6: the business-hours evaluator returns false when the
resolved weekday's entry is absent or disabled; for an enabled day it
returns true exactly when start ≤ localTime ≤ end under lexicographic
HH:MM comparison, both endpoints inclusive; and on any
timezone-resolution failure it returns true (fail open). -/
theorem isBusinessHour_spec (resolved : Option (String × String))
    (schedule : List (String × DaySchedule)) :
    (resolved = none → BusinessHours.isBusinessHour resolved schedule = true)
    ∧ (∀ day t, resolved = some (day, t) →
        (BusinessHours.lookupDay schedule day = none →
            BusinessHours.isBusinessHour resolved schedule = false)
        ∧ ∀ d, BusinessHours.lookupDay schedule day = some d →
            (d.enabled = false → BusinessHours.isBusinessHour resolved schedule = false)
            ∧ (d.enabled = true →
                (BusinessHours.isBusinessHour resolved schedule = true ↔
                  strLe d.start t = true ∧ strLe t d.«end» = true))) := by
  constructor
  · intro h; subst h; rfl
  · intro day t h; subst h
    constructor
    · intro hnone
      simp [BusinessHours.isBusinessHour, hnone]
    · intro d hd
      constructor
      · intro hdis
        simp [BusinessHours.isBusinessHour, hd, hdis]
      · intro hen
        simp [BusinessHours.isBusinessHour, hd, hen, Bool.and_eq_true]

/-- Witness for C6: Monday 10:00 inside an enabled 09:00–17:00 Monday
schedule is open. -/
theorem isBusinessHour_spec_witness :
    BusinessHours.isBusinessHour (some ("monday", "10:00"))
      [("monday", ⟨"09:00", "17:00", true⟩)] = true := by
  have h := (isBusinessHour_spec (some ("monday", "10:00"))
      [("monday", ⟨"09:00", "17:00", true⟩)]).2 "monday" "10:00" rfl
  exact ((h.2 ⟨"09:00", "17:00", true⟩ (by decide)).2 rfl).mpr (by decide)

/-- Claim C9: `sendManualMessage` resolves the recipient by looking up a
customer with the empty string as phone number, so whenever no stored
customer has the empty phone number it fails with "Customer not found"
for every customerId and leaves the store unchanged (no outgoing message
stored). -/
theorem sendManualMessage_empty_lookup (env : Env) (s : DBState)
    (customerId content : String)
    (h : ∀ c ∈ s.customers, c.phoneNumber ≠ "") :
    MessageProcessor.sendManualMessage env s customerId content =
      (s, { success := false, messageId := none, error := some "Customer not found" }) := by
  have hfind : CustomerDatabase.findByPhoneNumber s "" = none := by
    rw [CustomerDatabase.findByPhoneNumber, List.find?_eq_none]
    intro c hc
    simpa using h c hc
  rw [MessageProcessor.sendManualMessage, hfind]

/-- Witness for C9: a store whose only customer has a non-empty phone
number rejects every manual send. -/
theorem sendManualMessage_empty_lookup_witness :
    MessageProcessor.sendManualMessage sampleEnv newCustomerState "id_0" "hi" =
      (newCustomerState,
        { success := false, messageId := none, error := some "Customer not found" }) :=
  sendManualMessage_empty_lookup sampleEnv newCustomerState "id_0" "hi" (by decide)

/-- Claim C10: a status string outside {sent, delivered, read, failed} is
coerced to "sent" and applied to the stored message with that channel
message id, overwriting whatever status it had (including "delivered" or
"read"). -/
theorem processStatusUpdate_coerces_unknown (s : DBState) (messageId status : String)
    (h : status ∉ MessageProcessor.validStatuses) :
    MessageProcessor.processStatusUpdate s messageId status =
      (MessageDatabase.updateStatus s messageId "sent").1
    ∧ ∀ m, s.messages.find? (fun x => x.messageId == messageId) = some m →
        (MessageProcessor.processStatusUpdate s messageId status).messages.find?
          (fun x => x.messageId == messageId) = some { m with status := "sent" } := by
  have hc : MessageProcessor.validStatuses.contains status = false := by
    simpa using h
  constructor
  · rw [MessageProcessor.processStatusUpdate, hc]
    rfl
  · intro m hm
    rw [MessageProcessor.processStatusUpdate, hc]
    show ((MessageDatabase.updateStatus s messageId "sent").1).messages.find? _ = _
    rw [MessageDatabase.updateStatus]
    simp only
    rw [find?_updateFirst_self (fun x => x.messageId == messageId)
      (fun x => { x with status := "sent" }) (fun x => rfl) s.messages, hm]
    rfl

/-- Claim C1 fails on the code: redelivering the same webhook message
(same channel message id "wamid.A", direction "incoming") appends a
second Message — the ledger grows from one to two records with that
(channel id, direction) key — and dispatches a second auto-reply.
`MessageDatabase.create` has no check-then-insert. -/
theorem duplicate_redelivery_grows_ledger :
    dupRun1.1.messages.countP
        (fun m => m.messageId == "wamid.A" && m.direction == "incoming") = 1
    ∧ dupRun2.1.messages.countP
        (fun m => m.messageId == "wamid.A" && m.direction == "incoming") = 2
    ∧ dupRun1.2.autoReplySent = true
    ∧ dupRun2.2.autoReplySent = true
    ∧ dupRun2.1.messages.countP (fun m => m.isAutoReply) = 2 := by
  decide

/-- Claim C2 fails on the code: `updateStatus` overwrites
unconditionally, so a "sent" event regresses a message already marked
"read".  (The no-op parts of the claim do hold: an unknown channel id
changes nothing, and redelivering the status a message already has
leaves the store unchanged.) -/
theorem status_update_regresses :
    readMessage.status = "read"
    ∧ (MessageProcessor.processStatusUpdate readState "wamid.X" "sent").messages.find?
        (fun m => m.messageId == "wamid.X") = some { readMessage with status := "sent" }
    ∧ MessageProcessor.processStatusUpdate readState "wamid.unknown" "sent" = readState
    ∧ MessageProcessor.processStatusUpdate readState "wamid.X" "read" = readState := by
  decide

/-- Claim C3 fails on the code: `RateLimiter.isAllowed` does implement
the sliding window (five accepts, a sixth rejection inside the window,
acceptance again after the window slides past the first event), but the
webhook pipeline never invokes it — six events from one sender inside
one window are all persisted (six Messages appended; the sender's
customer record created and updated to messageCount 6). -/
theorem rate_gate_never_applied :
    (RateLimiter.runEvents ⟨[]⟩ rateEvents).2 = [true, true, true, true, true, false]
    ∧ (RateLimiter.isAllowed (RateLimiter.runEvents ⟨[]⟩ rateEvents).1 "15551234567"
        62000 60000 5).2 = true
    ∧ sixBurstState.messages.countP (fun m => m.direction == "incoming") = 6
    ∧ sixBurstState.customers.map (fun c => c.messageCount) = [6] := by
  decide

/-- Claim C4 fails on the code: `MessageValidator` does flag the second
identical body from a sender as repeated, but neither the pipeline nor
`processAutoReply` consults it — both identical inbound bodies are
persisted AND both receive an auto-reply (two isAutoReply messages),
not at most one. -/
theorem repeated_body_double_reply :
    dupFlag1.2 = false
    ∧ dupFlag2.2 = true
    ∧ dupBodyRun2.1.messages.countP (fun m => m.direction == "incoming") = 2
    ∧ dupBodyRun1.2.autoReplySent = true
    ∧ dupBodyRun2.2.autoReplySent = true
    ∧ dupBodyRun2.1.messages.countP (fun m => m.isAutoReply) = 2 := by
  decide

/-- Counterexample to C7 as stated: a profile hint IS present for the
phone number (the contact matches `wa_id`), yet the created customer's
name is the placeholder, not the hint's (empty) name — the JS `||`
treats an empty profile name as absent. -/
theorem findOrCreateCustomer_hint_counterexample :
    [hintedContact].find? (fun x => x.wa_id == "15551234567") = some hintedContact
    ∧ (MessageProcessor.findOrCreateCustomer sampleEnv (emptyState sampleSettings)
        "15551234567" [hintedContact]).2.name = "Customer 4567"
    ∧ hintedContact.profileName ≠ "Customer 4567" := by
  refine ⟨by decide, by decide, by decide⟩

/-- Claim C7 (amended): resolve-or-create returns the existing customer
unchanged when one with that phone number exists; otherwise it creates
and returns a customer with isNew = true, status "active",
messageCount 0, and name equal to the profile hint's name when present
and non-empty, else the placeholder "Customer " followed by the last
four characters of the phone number. -/
theorem findOrCreateCustomer_spec (env : Env) (s : DBState) (phone : String)
    (contacts : List WhatsAppContact) :
    (∀ c, CustomerDatabase.findByPhoneNumber s phone = some c →
        MessageProcessor.findOrCreateCustomer env s phone contacts = (s, c))
    ∧ (CustomerDatabase.findByPhoneNumber s phone = none →
        (MessageProcessor.findOrCreateCustomer env s phone contacts).1.customers
            = s.customers ++ [(MessageProcessor.findOrCreateCustomer env s phone contacts).2]
        ∧ (MessageProcessor.findOrCreateCustomer env s phone contacts).2.isNew = true
        ∧ (MessageProcessor.findOrCreateCustomer env s phone contacts).2.status = "active"
        ∧ (MessageProcessor.findOrCreateCustomer env s phone contacts).2.messageCount = 0
        ∧ (MessageProcessor.findOrCreateCustomer env s phone contacts).2.phoneNumber = phone
        ∧ (∀ k, contacts.find? (fun x => x.wa_id == phone) = some k → k.profileName ≠ "" →
            (MessageProcessor.findOrCreateCustomer env s phone contacts).2.name
              = k.profileName)
        ∧ (∀ k, contacts.find? (fun x => x.wa_id == phone) = some k → k.profileName = "" →
            (MessageProcessor.findOrCreateCustomer env s phone contacts).2.name
              = "Customer " ++ jsTakeRight phone 4)
        ∧ (contacts.find? (fun x => x.wa_id == phone) = none →
            (MessageProcessor.findOrCreateCustomer env s phone contacts).2.name
              = "Customer " ++ jsTakeRight phone 4)) := by
  constructor
  · intro c hc
    rw [MessageProcessor.findOrCreateCustomer, hc]
  · intro hn
    rw [MessageProcessor.findOrCreateCustomer, hn]
    cases hk : contacts.find? (fun x => x.wa_id == phone) with
    | none =>
      simp [hk, CustomerDatabase.create]
    | some k =>
      by_cases hname : k.profileName == ""
      · simp [hk, hname, CustomerDatabase.create]
        intro hne
        exact absurd (by simpa using hname) hne
      · simp [hk, hname, CustomerDatabase.create]
        intro hemp
        exact absurd hemp (by simpa using hname)

/-- Witness for C7 (amended): a non-empty hint names the customer; with
no matching hint the placeholder is used. -/
theorem findOrCreateCustomer_spec_witness :
    MessageProcessor.findOrCreateCustomer sampleEnv newCustomerState "15551234567" []
      = (newCustomerState, newCustomerFixture)
    ∧ (MessageProcessor.findOrCreateCustomer sampleEnv (emptyState sampleSettings)
        "15559990000" [⟨"Bea", "15559990000"⟩]).2.name = "Bea" := by
  constructor
  · exact (findOrCreateCustomer_spec sampleEnv newCustomerState "15551234567" []).1
      newCustomerFixture (by decide)
  · exact ((findOrCreateCustomer_spec sampleEnv (emptyState sampleSettings) "15559990000"
      [⟨"Bea", "15559990000"⟩]).2 (by decide)).2.2.2.2.2.1 ⟨"Bea", "15559990000"⟩
      (by decide) (by decide)

/-- Claim C5: when an auto-reply is due (bot active, content not a skip
pattern, credentials set, send succeeding), exactly one template is
dispatched, with precedence: business-hours checking enabled and the
current time outside business hours selects the after-hours template
regardless of isNew; otherwise isNew selects the new-customer template
and non-isNew the returning-customer template; the fallback template is
never selected by this chain. -/
theorem processAutoReply_template_precedence (env : Env) (s : DBState)
    (settings : BotSettings) (customer : Customer) (content : String)
    (hset : s.botSettings = some settings)
    (hactive : settings.isActive = true)
    (hskip : MessageProcessor.shouldSendAutoReply content = true)
    (htok : settings.accessToken ≠ "")
    (hpn : settings.phoneNumberId ≠ "")
    (hsend : ∀ a b, (env.sendResponse a b).isSome = true) :
    (MessageProcessor.processAutoReply env s customer content).2 = true
    ∧ ∃ msg,
        (MessageProcessor.processAutoReply env s customer content).1.messages
          = s.messages ++ [msg]
      ∧ msg.isAutoReply = true
      ∧ msg.direction = "outgoing"
      ∧ ((settings.businessHours.enabled = true ∧
            BusinessHours.isBusinessHour (env.tzResolve settings.businessHours.timezone)
              settings.businessHours.schedule = false) →
          msg.content = settings.autoReply.afterHoursMessage)
      ∧ (¬(settings.businessHours.enabled = true ∧
            BusinessHours.isBusinessHour (env.tzResolve settings.businessHours.timezone)
              settings.businessHours.schedule = false) →
          (customer.isNew = true → msg.content = settings.autoReply.newCustomerMessage)
          ∧ (customer.isNew = false →
              msg.content = settings.autoReply.returningCustomerMessage))
      ∧ (msg.content = settings.autoReply.afterHoursMessage
          ∨ msg.content = settings.autoReply.newCustomerMessage
          ∨ msg.content = settings.autoReply.returningCustomerMessage) := by
  have htok' : (settings.accessToken == "") = false := beq_eq_false_iff_ne.mpr htok
  have hpn' : (settings.phoneNumberId == "") = false := beq_eq_false_iff_ne.mpr hpn
  rw [MessageProcessor.processAutoReply]
  simp only [SettingsDatabase.get, hset, hactive, hskip, Bool.not_true, Bool.false_eq_true,
    if_false, WhatsAppAPI.sendMessage, htok', hpn', Bool.or_self]
  obtain ⟨rid, hrid⟩ := Option.isSome_iff_exists.mp (hsend customer.phoneNumber
    (if settings.businessHours.enabled = true then
      if (!BusinessHours.isBusinessHour (env.tzResolve settings.businessHours.timezone)
            settings.businessHours.schedule) = true then
        settings.autoReply.afterHoursMessage
      else if customer.isNew = true then settings.autoReply.newCustomerMessage
      else settings.autoReply.returningCustomerMessage
    else if customer.isNew = true then settings.autoReply.newCustomerMessage
    else settings.autoReply.returningCustomerMessage))
  rw [hrid]
  constructor
  · rfl
  · refine ⟨_, rfl, rfl, rfl, ?_, ?_, ?_⟩
    · rintro ⟨hen, hbh⟩
      simp [MessageDatabase.create, hen, hbh]
    · intro hnc
      constructor
      · intro hnew
        by_cases hen : settings.businessHours.enabled = true
        · have hbh : BusinessHours.isBusinessHour
              (env.tzResolve settings.businessHours.timezone)
              settings.businessHours.schedule = true := by
            by_contra hb
            exact hnc ⟨hen, by simpa using hb⟩
          simp [MessageDatabase.create, hen, hbh, hnew]
        · simp [MessageDatabase.create, hen, hnew]
      · intro hold
        by_cases hen : settings.businessHours.enabled = true
        · have hbh : BusinessHours.isBusinessHour
              (env.tzResolve settings.businessHours.timezone)
              settings.businessHours.schedule = true := by
            by_contra hb
            exact hnc ⟨hen, by simpa using hb⟩
          simp [MessageDatabase.create, hen, hbh, hold]
        · simp [MessageDatabase.create, hen, hold]
    · by_cases hen : settings.businessHours.enabled = true <;>
        by_cases hbh : BusinessHours.isBusinessHour
            (env.tzResolve settings.businessHours.timezone)
            settings.businessHours.schedule = true <;>
        by_cases hnew : customer.isNew = true <;>
        simp [MessageDatabase.create, hen, hbh, hnew]

/-- Witness for C5: with business-hours checking disabled and a new
customer, the new-customer template is dispatched. -/
theorem processAutoReply_template_precedence_witness :
    (MessageProcessor.processAutoReply sampleEnv newCustomerState newCustomerFixture
      "Hello").2 = true
    ∧ ∃ msg,
        (MessageProcessor.processAutoReply sampleEnv newCustomerState newCustomerFixture
          "Hello").1.messages = newCustomerState.messages ++ [msg]
      ∧ msg.isAutoReply = true
      ∧ msg.direction = "outgoing"
      ∧ ((sampleSettings.businessHours.enabled = true ∧
            BusinessHours.isBusinessHour (sampleEnv.tzResolve sampleSettings.businessHours.timezone)
              sampleSettings.businessHours.schedule = false) →
          msg.content = sampleSettings.autoReply.afterHoursMessage)
      ∧ (¬(sampleSettings.businessHours.enabled = true ∧
            BusinessHours.isBusinessHour (sampleEnv.tzResolve sampleSettings.businessHours.timezone)
              sampleSettings.businessHours.schedule = false) →
          (newCustomerFixture.isNew = true →
              msg.content = sampleSettings.autoReply.newCustomerMessage)
          ∧ (newCustomerFixture.isNew = false →
              msg.content = sampleSettings.autoReply.returningCustomerMessage))
      ∧ (msg.content = sampleSettings.autoReply.afterHoursMessage
          ∨ msg.content = sampleSettings.autoReply.newCustomerMessage
          ∨ msg.content = sampleSettings.autoReply.returningCustomerMessage) :=
  processAutoReply_template_precedence sampleEnv newCustomerState sampleSettings
    newCustomerFixture "Hello" rfl rfl (by decide) (by decide) (by decide)
    (fun a b => rfl)

/-- Witness for C10: the unknown status "bogus" overwrites a recorded
"read" with "sent". -/
theorem processStatusUpdate_coerces_unknown_witness :
    MessageProcessor.processStatusUpdate readState "wamid.X" "bogus" =
      (MessageDatabase.updateStatus readState "wamid.X" "sent").1
    ∧ (MessageProcessor.processStatusUpdate readState "wamid.X" "bogus").messages.find?
        (fun x => x.messageId == "wamid.X") = some { readMessage with status := "sent" } := by
  have h := processStatusUpdate_coerces_unknown readState "wamid.X" "bogus" (by decide)
  exact ⟨h.1, h.2 readMessage (by decide)⟩

end WhatsAppBot
